import Mathlib

/-!
Verification of the mcp-security-inspector test servers: a shallow embedding of
the authorization-gated dispatch core (bearer-token middleware, permission
table, permission check, dispatcher, session loop) of the Python sources
`test_mcp_server/combine_auth.py`, `test_mcp_server/api_key.py`,
`test_mcp_server/malicious_server.py` and `test-mcp-server.py`, together with
theorems settling the specification's claims about it.

Conventions of the embedding:
- Python strings are Lean `String`; dicts with string keys are association
  lists looked up with `List.find?`.
- A Python function that may `raise` is embedded as `Except String α`, the
  `.error` constructor carrying the exception message; `.ok` is a normal
  return.
- Python numbers (`float` arguments of the arithmetic demo tools) are `Rat`:
  the spec places arithmetic content out of scope, and no claim depends on
  floating-point rounding.
- External I/O (subprocess execution, web search) is passed in as an explicit
  oracle argument describing what the outside world returned or raised.
-/

namespace MCPInspector

/-! ## Permission table and permission check (combine_auth.py) -/

/-- `API_KEY_PERMISSIONS` from `combine_auth.py`: the configured mapping from
API key to the list of tool names it may invoke. -/
def API_KEY_PERMISSIONS : List (String × List String) :=
  [("key1", ["add", "subtract"]),
   ("key2", ["add"]),
   ("key3", ["subtract"])]

/-- Python `dict.get(key, [])` on a string-keyed dict of string lists. -/
def dictGet (d : List (String × List String)) (key : String) : List String :=
  match d.find? (fun p => p.1 == key) with
  | some p => p.2
  | none => []

/-- `check_permissions` from `combine_auth.py` lines 23-28.  The Python
function reads `auth_token` out of the ambient `request_context` contextvar;
the embedding receives that ambient value as the explicit first argument.
`raise ValueError(...)` is the `.error` constructor. -/
def check_permissions (auth_token : String) (tool_name : String) :
    Except String Bool :=
  let permissions := dictGet API_KEY_PERMISSIONS auth_token
  if tool_name ∈ permissions then
    .ok true
  else
    .error ("Permission denied for tool: " ++ tool_name)

/-! ## Python string primitives

Lean's builtin `String.startsWith` and `String.splitOn` are implemented on
byte positions and do not reduce inside the kernel, so the embedding carries
its own executable versions over the underlying character lists, implementing
exactly CPython's `str.startswith` and `str.split` with a non-empty separator
(left-to-right scan for non-overlapping occurrences). -/

/-- `headMatches pat s` is true when the character list `pat` is an initial
segment of `s` (the core of `str.startswith`). -/
def headMatches : List Char → List Char → Bool
  | [], _ => true
  | _ :: _, [] => false
  | p :: ps, c :: cs => p == c && headMatches ps cs

/-- Python `s.startswith(pat)`. -/
def pyStartswith (s pat : String) : Bool :=
  headMatches pat.data s.data

/-- Worker for `str.split`: scans `s` left to right; on each non-overlapping
occurrence of `sep` emits the accumulated field and restarts after the
separator.  `fuel` only serves termination and never runs out when it begins
at `s.length + 1` with a non-empty separator. -/
def splitCharsFuel (sep : List Char) : Nat → List Char → List Char → List (List Char)
  | 0, s, acc => [acc.reverse ++ s]
  | _ + 1, [], acc => [acc.reverse]
  | fuel + 1, c :: cs, acc =>
    if headMatches sep (c :: cs) then
      acc.reverse :: splitCharsFuel sep fuel ((c :: cs).drop sep.length) []
    else
      splitCharsFuel sep fuel cs (c :: acc)

/-- Python `s.split(sep)` for a non-empty separator `sep`. -/
def pySplit (s sep : String) : List String :=
  (splitCharsFuel sep.data (s.data.length + 1) s.data []).map (fun cs => ⟨cs⟩)

/-! ## Bearer-token auth middleware (combine_auth.py and api_key.py) -/

/-- An HTTP response produced by the middleware: status code plus the JSON
object body, as an association list of its fields. -/
structure HttpResponse where
  status : Nat
  body : List (String × String)
deriving DecidableEq, Repr

/-- Outcome of `AuthMiddleware.dispatch`: either an early `JSONResponse`
(request rejected, `call_next` never invoked, so no session is established)
or control passed on to the wrapped app together with the token that was
stored in the request context. -/
inductive MiddlewareOutcome where
  | response (r : HttpResponse)
  | callNext (token : String)
deriving DecidableEq, Repr

/-- The token extraction `auth_header.split("Bearer ")[1]` (index 1 exists
whenever the header starts with the separator, which the middleware has
checked before extracting). -/
def bearerToken (auth_header : String) : String :=
  (pySplit auth_header "Bearer ").getD 1 ""

/-- `AuthMiddleware.dispatch` from `combine_auth.py` lines 35-51.  The header
argument is `request.headers.get("Authorization")` (`none` when the header is
absent); Python's `not auth_header` is also true for the empty string. -/
def authMiddlewareCombine (auth_header : Option String) : MiddlewareOutcome :=
  match auth_header with
  | none => .response ⟨401, [("error", "Unauthorized")]⟩
  | some h =>
    if h = "" ∨ ¬ pyStartswith h "Bearer " then
      .response ⟨401, [("error", "Unauthorized")]⟩
    else
      let token := bearerToken h
      if (API_KEY_PERMISSIONS.find? (fun p => p.1 == token)).isSome then
        .callNext token
      else
        .response ⟨401, [("error", "Invalid API key")]⟩

/-- `AuthMiddleware.dispatch` from `api_key.py` lines 59-72: identical header
handling, but the token is compared against the single configured key
`"key1"`. -/
def authMiddlewareApiKey (auth_header : Option String) : MiddlewareOutcome :=
  match auth_header with
  | none => .response ⟨401, [("error", "Unauthorized")]⟩
  | some h =>
    if h = "" ∨ ¬ pyStartswith h "Bearer " then
      .response ⟨401, [("error", "Unauthorized")]⟩
    else
      let token := bearerToken h
      if token ≠ "key1" then
        .response ⟨401, [("error", "Invalid API key")]⟩
      else
        .callNext token

/-! ## Claims C2, C3, C9: the permission check -/

/-- C2: for every credential `c` and tool name `k`, `check_permissions`
succeeds exactly when `k` is in the configured permission-table entry for `c`
(and the table entries are as configured: key1 ↦ [add, subtract],
key2 ↦ [add], key3 ↦ [subtract]).  Determinism is definitional: the embedding
is a pure function of `(c, k)`. -/
theorem check_permissions_matches_table (c k : String) :
    (check_permissions c k = .ok true ↔ k ∈ dictGet API_KEY_PERMISSIONS c)
    ∧ dictGet API_KEY_PERMISSIONS "key1" = ["add", "subtract"]
    ∧ dictGet API_KEY_PERMISSIONS "key2" = ["add"]
    ∧ dictGet API_KEY_PERMISSIONS "key3" = ["subtract"] := by
  refine ⟨?_, by decide, by decide, by decide⟩
  unfold check_permissions
  by_cases hk : k ∈ dictGet API_KEY_PERMISSIONS c <;> simp [hk]

/-- C3 counterexample: the denial decision is not returned as a value — it
surfaces as a raised `ValueError` (the `.error` constructor).  Concretely, for
credential `key2` and the forbidden-but-existing tool `subtract`,
`check_permissions` raises instead of returning. -/
theorem check_permissions_denial_raises :
    check_permissions "key2" "subtract"
      = .error "Permission denied for tool: subtract"
    ∧ ∀ b : Bool, check_permissions "key2" "subtract" ≠ .ok b := by
  have h : check_permissions "key2" "subtract"
      = .error "Permission denied for tool: subtract" := rfl
  refine ⟨h, ?_⟩
  intro b hc
  rw [h] at hc
  exact Except.noConfusion hc

/-- C3 amended: whenever the tool name is absent from the credential's
permission set — including when the credential is valid but the tool does not
exist at all — `check_permissions` raises `ValueError("Permission denied for
tool: <name>")`; denial never produces a normal return. -/
theorem check_permissions_denial_is_exception (c k : String)
    (h : k ∉ dictGet API_KEY_PERMISSIONS c) :
    check_permissions c k = .error ("Permission denied for tool: " ++ k)
    ∧ ∀ b : Bool, check_permissions c k ≠ .ok b := by
  unfold check_permissions
  simp [h]

/-- C3 amended-claim witness: `key2` is a valid credential and `multiply` is a
tool that does not exist at all; the check raises. -/
theorem check_permissions_denial_is_exception_witness :
    check_permissions "key2" "multiply"
      = .error ("Permission denied for tool: " ++ "multiply")
    ∧ ∀ b : Bool, check_permissions "key2" "multiply" ≠ .ok b :=
  check_permissions_denial_is_exception "key2" "multiply" (by decide)

/-- C9: deny by default.  A token absent from `API_KEY_PERMISSIONS` gets the
default permission list `[]`, so the check raises for every tool name: an
unconfigured credential can never successfully invoke any permission-checked
tool. -/
theorem unconfigured_token_always_denied (token tool : String)
    (h1 : token ≠ "key1") (h2 : token ≠ "key2") (h3 : token ≠ "key3") :
    check_permissions token tool
      = .error ("Permission denied for tool: " ++ tool)
    ∧ ∀ b : Bool, check_permissions token tool ≠ .ok b := by
  have e1 : ("key1" == token) = false := beq_eq_false_iff_ne.mpr (Ne.symm h1)
  have e2 : ("key2" == token) = false := beq_eq_false_iff_ne.mpr (Ne.symm h2)
  have e3 : ("key3" == token) = false := beq_eq_false_iff_ne.mpr (Ne.symm h3)
  have hget : dictGet API_KEY_PERMISSIONS token = [] := by
    unfold dictGet API_KEY_PERMISSIONS
    simp [List.find?, e1, e2, e3]
  unfold check_permissions
  simp [hget]

/-- C9 witness: the unconfigured token `hacker` is denied the tool `add`. -/
theorem unconfigured_token_always_denied_witness :
    check_permissions "hacker" "add"
      = .error ("Permission denied for tool: " ++ "add")
    ∧ ∀ b : Bool, check_permissions "hacker" "add" ≠ .ok b :=
  unconfigured_token_always_denied "hacker" "add"
    (by decide) (by decide) (by decide)

/-! ## Claim C5: 401 responses of the auth middleware -/

/-- C5: for every incoming request, an absent `Authorization` header or one
not starting with `"Bearer "` is answered `401 {"error": "Unauthorized"}`, and
a Bearer header whose extracted token is not a configured key is answered
`401 {"error": "Invalid API key"}` — in both middlewares (`combine_auth.py`
configured with keys key1/key2/key3, `api_key.py` configured with key1), and
in every case the outcome is an early `.response`, so `call_next` is never
invoked and no session is established. -/
theorem auth_middleware_rejects_unauthenticated (h : String) :
    (authMiddlewareCombine none = .response ⟨401, [("error", "Unauthorized")]⟩
      ∧ authMiddlewareApiKey none = .response ⟨401, [("error", "Unauthorized")]⟩)
    ∧ (pyStartswith h "Bearer " = false →
        authMiddlewareCombine (some h) = .response ⟨401, [("error", "Unauthorized")]⟩
        ∧ authMiddlewareApiKey (some h) = .response ⟨401, [("error", "Unauthorized")]⟩)
    ∧ (pyStartswith h "Bearer " = true →
        bearerToken h ≠ "key1" → bearerToken h ≠ "key2" → bearerToken h ≠ "key3" →
        authMiddlewareCombine (some h) = .response ⟨401, [("error", "Invalid API key")]⟩)
    ∧ (pyStartswith h "Bearer " = true → bearerToken h ≠ "key1" →
        authMiddlewareApiKey (some h) = .response ⟨401, [("error", "Invalid API key")]⟩) := by
  refine ⟨⟨rfl, rfl⟩, ?_, ?_, ?_⟩
  · intro hsw
    constructor <;> simp [authMiddlewareCombine, authMiddlewareApiKey, hsw]
  · intro hsw k1 k2 k3
    have hne : h ≠ "" := by
      intro he
      rw [he] at hsw
      exact absurd hsw (by decide)
    have e1 : ("key1" == bearerToken h) = false := beq_eq_false_iff_ne.mpr (Ne.symm k1)
    have e2 : ("key2" == bearerToken h) = false := beq_eq_false_iff_ne.mpr (Ne.symm k2)
    have e3 : ("key3" == bearerToken h) = false := beq_eq_false_iff_ne.mpr (Ne.symm k3)
    simp [authMiddlewareCombine, hne, hsw, API_KEY_PERMISSIONS, List.find?, e1, e2, e3]
  · intro hsw k1
    have hne : h ≠ "" := by
      intro he
      rw [he] at hsw
      exact absurd hsw (by decide)
    simp [authMiddlewareApiKey, hne, hsw, k1]

/-- C5 witness: a request with no header, one with a Basic-scheme header, and
one with an unconfigured Bearer token are all rejected with the stated 401
bodies. -/
theorem auth_middleware_rejects_unauthenticated_witness :
    (authMiddlewareCombine none = .response ⟨401, [("error", "Unauthorized")]⟩
      ∧ authMiddlewareApiKey none = .response ⟨401, [("error", "Unauthorized")]⟩)
    ∧ (authMiddlewareCombine (some "Basic abc")
        = .response ⟨401, [("error", "Unauthorized")]⟩)
    ∧ (authMiddlewareCombine (some "Bearer evil")
        = .response ⟨401, [("error", "Invalid API key")]⟩)
    ∧ (authMiddlewareApiKey (some "Bearer evil")
        = .response ⟨401, [("error", "Invalid API key")]⟩) :=
  ⟨(auth_middleware_rejects_unauthenticated "").1,
   ((auth_middleware_rejects_unauthenticated "Basic abc").2.1 (by decide)).1,
   (auth_middleware_rejects_unauthenticated "Bearer evil").2.2.1
     (by decide) (by decide) (by decide) (by decide),
   (auth_middleware_rejects_unauthenticated "Bearer evil").2.2.2
     (by decide) (by decide)⟩

/-! ## Capability registry and dispatcher (combine_auth.py server) -/

/-- Capability kinds of the data model: tool, resource, prompt. -/
inductive CapKind where
  | tool
  | resource
  | prompt
deriving DecidableEq, Repr

/-- A registered capability: name, kind, and the required argument names of
its input schema. -/
structure CapabilityDescriptor where
  name : String
  kind : CapKind
  schema : List String
deriving DecidableEq, Repr

/-- The capabilities registered at startup in `combine_auth.py` via
`@mcp.tool()`: `add(a, b)` and `subtract(a, b)`. -/
def combineRegistry : List CapabilityDescriptor :=
  [⟨"add", .tool, ["a", "b"]⟩, ⟨"subtract", .tool, ["a", "b"]⟩]

/-- The allow/deny condition of `check_permissions` as a boolean policy: the
tool name is in the credential's configured permission list. -/
def authorize (auth_token cap_name : String) : Bool :=
  (dictGet API_KEY_PERMISSIONS auth_token).contains cap_name

/-- The policy condition and the source's exception-raising check agree:
`authorize` allows exactly when `check_permissions` returns normally. -/
theorem authorize_iff_check_ok (t k : String) :
    authorize t k = true ↔ check_permissions t k = .ok true := by
  unfold authorize check_permissions
  by_cases hk : k ∈ dictGet API_KEY_PERMISSIONS t <;>
    simp [hk, List.contains, List.elem_iff]

/-- `add` from `combine_auth.py` lines 67-81: runs `check_permissions("add")`
(whose `ValueError` propagates out of the handler as `.error`), then returns
`a + b`. -/
def add (auth_token : String) (a b : Rat) : Except String Rat :=
  match check_permissions auth_token "add" with
  | .error e => .error e
  | .ok _ => .ok (a + b)

/-- `subtract` from `combine_auth.py` lines 83-97: runs
`check_permissions("subtract")`, then returns `a - b`. -/
def subtract (auth_token : String) (a b : Rat) : Except String Rat :=
  match check_permissions auth_token "subtract" with
  | .error e => .error e
  | .ok _ => .ok (a - b)

/-- Extract a named argument from a call's argument list (the dispatcher only
invokes a handler after validation, so the default is never used then). -/
def getArg (args : List (String × Rat)) (field : String) : Rat :=
  match args.find? (fun p => p.1 == field) with
  | some p => p.2
  | none => 0

/-- Schema validation: every required argument name is present. -/
def validateArgs (schema : List String) (args : List (String × Rat)) : Bool :=
  schema.all (fun f => (args.find? (fun p => p.1 == f)).isSome)

/-- Run the registered handler for a tool of `combine_auth.py` by name. -/
def runCombineTool (auth_token name : String) (args : List (String × Rat)) :
    Except String Rat :=
  if name = "add" then add auth_token (getArg args "a") (getArg args "b")
  else if name = "subtract" then subtract auth_token (getArg args "a") (getArg args "b")
  else .error ("Unknown tool: " ++ name)

/-- The dispatch error taxonomy of the spec. -/
inductive ErrKind where
  | capabilityNotFound
  | invalidArguments
  | permissionDenied
  | handlerFailure
deriving DecidableEq, Repr

/-- A call outcome: success value or structured error. -/
inductive Outcome where
  | success (v : Rat)
  | error (kind : ErrKind) (msg : String)
deriving DecidableEq, Repr

/-- Modelled from the spec: the per-call dispatch loop itself (FastMCP's
`call_tool` machinery) is not among the repository sources — only the
registered handlers and the permission table are.  Per spec section 4.4 the
dispatcher resolves the name in the registry (`CapabilityNotFound` if absent),
validates arguments (`InvalidArguments`), consults the permission policy
(`PermissionDenied`), and only then runs the registered source handler,
classifying an exception escaping it as `HandlerFailure`. -/
def dispatch (auth_token name : String) (args : List (String × Rat)) : Outcome :=
  match combineRegistry.find? (fun d => d.name == name) with
  | none => .error .capabilityNotFound ("Unknown tool: " ++ name)
  | some d =>
    if validateArgs d.schema args = false then
      .error .invalidArguments "missing required argument"
    else if authorize auth_token name = false then
      .error .permissionDenied ("Permission denied for tool: " ++ name)
    else
      match runCombineTool auth_token name args with
      | .error e => .error .handlerFailure e
      | .ok v => .success v

/-- Modelled from the spec: capability listing (FastMCP's `list_tools`) is not
among the repository sources; the sources register every tool unconditionally
and place permission checks only inside handler bodies, and per spec section 6
listing exposes the full registry to any authenticated session — the session
token does not enter the computation. -/
def listCapabilities (_auth_token : String) : List CapabilityDescriptor :=
  combineRegistry

/-! ## Claims C4 and C7: dispatch error kinds and listing -/

/-- C4: under credential `key2` (permitted only `add`), invoking the existing
tool `subtract` yields a `PermissionDenied` error while invoking the
unregistered `multiply` yields `CapabilityNotFound`; the two error kinds are
distinct, so forbidden-but-existing and unknown capabilities are never
conflated. -/
theorem forbidden_vs_unknown_distinct_kinds :
    dispatch "key2" "subtract" [("a", (5 : Rat)), ("b", (3 : Rat))]
      = .error .permissionDenied "Permission denied for tool: subtract"
    ∧ dispatch "key2" "multiply" [("a", (5 : Rat)), ("b", (3 : Rat))]
      = .error .capabilityNotFound "Unknown tool: multiply"
    ∧ ErrKind.permissionDenied ≠ ErrKind.capabilityNotFound :=
  ⟨rfl, rfl, by decide⟩

/-- C7: capability listing returns the full registry for every session
credential; in particular `key2`, though denied `subtract` at invocation time,
still sees both `add` and `subtract` (with their kind and schema) in the
listing. -/
theorem listing_ignores_permission_set :
    (∀ token : String, listCapabilities token = combineRegistry)
    ∧ (listCapabilities "key2").map (fun d => d.name) = ["add", "subtract"]
    ∧ authorize "key2" "subtract" = false
    ∧ (⟨"subtract", CapKind.tool, ["a", "b"]⟩ : CapabilityDescriptor)
        ∈ listCapabilities "key2" :=
  ⟨fun _ => rfl, rfl, by decide, by decide⟩

/-! ## Claim C6: authentication precedes capability resolution -/

/-- The observable events of processing one HTTP request. -/
inductive TraceEvent where
  | respond401 (body : List (String × String))
  | registryLookup (name : String)
  | handlerRun (name : String)
  | respondResult (r : Outcome)
deriving DecidableEq, Repr

/-- Events produced by dispatching one call: the registry lookup happens
first; the handler runs only when dispatch reaches execution. -/
def traceOfCall (auth_token : String) (c : String × List (String × Rat)) :
    List TraceEvent :=
  TraceEvent.registryLookup c.1 ::
    (match dispatch auth_token c.1 c.2 with
     | .success v => [.handlerRun c.1, .respondResult (.success v)]
     | .error .handlerFailure m =>
         [.handlerRun c.1, .respondResult (.error .handlerFailure m)]
     | .error k m => [.respondResult (.error k m)])

/-- The `combine_auth.py` request pipeline: `app.add_middleware(AuthMiddleware)`
wraps every route, so `AuthMiddleware.dispatch` runs first, and the MCP server
loop (where registry lookups and handler executions happen) is only reached
through `call_next`. -/
def handleRequest (auth_header : Option String)
    (calls : List (String × List (String × Rat))) : List TraceEvent :=
  match authMiddlewareCombine auth_header with
  | .response r => [.respond401 r.body]
  | .callNext token => (calls.map (traceOfCall token)).flatten

/-- C6: a request with no `Authorization` header is answered
`401 Unauthorized` and its processing trace contains no registry lookup and no
handler execution whatsoever — rejection strictly precedes any capability
resolution, whatever calls the request carried. -/
theorem no_header_rejected_before_any_lookup
    (calls : List (String × List (String × Rat))) :
    handleRequest none calls = [.respond401 [("error", "Unauthorized")]]
    ∧ (∀ n, TraceEvent.registryLookup n ∉ handleRequest none calls)
    ∧ (∀ n, TraceEvent.handlerRun n ∉ handleRequest none calls) := by
  refine ⟨rfl, ?_, ?_⟩ <;> intro n <;>
    simp [handleRequest, authMiddlewareCombine]

/-! ## Docs server (test-mcp-server.py) and the session call loop -/

/-- `docs_urls` from `test-mcp-server.py`: the libraries `get_docs`
supports. -/
def docs_urls : List (String × String) :=
  [("langchain", "python.langchain.com/docs"),
   ("llama-index", "docs.llamaindex.ai/en/stable"),
   ("autogen", "microsoft.github.io/autogen/stable"),
   ("agno", "docs.agno.com"),
   ("openai-agents-sdk", "openai.github.io/openai-agents-python"),
   ("mcp-doc", "modelcontextprotocol.io"),
   ("camel-ai", "docs.camel-ai.org"),
   ("crew-ai", "docs.crewai.com")]

/-- `get_docs` from `test-mcp-server.py` lines 63-88: raises `ValueError` when
the library is unsupported; otherwise performs a web search and fetches each
organic result — that external I/O is the oracle `webTexts`, the list of
fetched page texts (empty when the search returned no results, yielding
`"No results found"`). -/
def get_docs (webTexts : List String) (_query library : String) :
    Except String String :=
  if (docs_urls.find? (fun p => p.1 == library)).isNone then
    .error ("Library " ++ library ++ " not supported by this tool")
  else if webTexts.length = 0 then
    .ok "No results found"
  else
    .ok (String.join webTexts)

/-- One unit of work on a session of the docs server: correlation id, tool
name and the arguments of `get_docs`. -/
structure CallEnvelope where
  corrId : Nat
  tool : String
  query : String
  library : String
deriving DecidableEq, Repr

/-- Outcome of one docs-server call. -/
inductive DocOutcome where
  | success (v : String)
  | error (kind : ErrKind) (msg : String)
deriving DecidableEq, Repr

/-- The result envelope paired with its correlation id. -/
structure ResultEnvelope where
  corrId : Nat
  outcome : DocOutcome
deriving DecidableEq, Repr

/-- Session lifecycle states relevant to dispatch. -/
inductive SessionState where
  | active
  | closed
deriving DecidableEq, Repr

/-- Modelled from the spec: the per-call dispatch of the docs server (the MCP
library's `call_tool` loop is not among the repository sources).  The name is
resolved (the claim concerns the `get_docs` tool registered in
`test-mcp-server.py`); an exception escaping the handler becomes
`Error(HandlerFailure, message)` for that call. -/
def dispatchDocs (webTexts : List String) (c : CallEnvelope) : ResultEnvelope :=
  if c.tool = "get_docs" then
    match get_docs webTexts c.query c.library with
    | .error e => ⟨c.corrId, .error .handlerFailure e⟩
    | .ok v => ⟨c.corrId, .success v⟩
  else
    ⟨c.corrId, .error .capabilityNotFound ("Unknown tool: " ++ c.tool)⟩

/-- Modelled from the spec: the session call loop — dispatch errors are
returned in a `ResultEnvelope` over the existing session and never terminate
it; each accepted call produces exactly one result and processing
continues. -/
def processCalls (webTexts : List String) :
    SessionState → List CallEnvelope → List ResultEnvelope × SessionState
  | .closed, _ => ([], .closed)
  | .active, [] => ([], .active)
  | .active, c :: rest =>
    let r := dispatchDocs webTexts c
    let p := processCalls webTexts .active rest
    (r :: p.1, p.2)

/-- On an active session every call is dispatched, in order, and the session
stays active. -/
theorem processCalls_active (webTexts : List String) (cs : List CallEnvelope) :
    processCalls webTexts .active cs = (cs.map (dispatchDocs webTexts), .active) := by
  induction cs with
  | nil => rfl
  | cons c rest ih => simp [processCalls, ih]

/-- C8: a call whose handler raises (here `get_docs` on the unsupported
library `numpy`) produces a `HandlerFailure` error envelope for that single
call only; in any surrounding stream of calls the session remains active and
every other call — including all subsequent ones — is still dispatched
normally, each yielding its own result envelope. -/
theorem handler_failure_does_not_kill_session
    (webTexts : List String) (pre post : List CallEnvelope) :
    dispatchDocs webTexts ⟨7, "get_docs", "React Agent", "numpy"⟩
      = ⟨7, .error .handlerFailure "Library numpy not supported by this tool"⟩
    ∧ processCalls webTexts .active
        (pre ++ ⟨7, "get_docs", "React Agent", "numpy"⟩ :: post)
      = (pre.map (dispatchDocs webTexts)
          ++ ⟨7, .error .handlerFailure "Library numpy not supported by this tool"⟩
            :: post.map (dispatchDocs webTexts),
         .active) := by
  have hx : dispatchDocs webTexts ⟨7, "get_docs", "React Agent", "numpy"⟩
      = ⟨7, .error .handlerFailure "Library numpy not supported by this tool"⟩ := rfl
  refine ⟨hx, ?_⟩
  rw [processCalls_active]
  simp [hx]

/-! ## Claim C10: the malicious_server.py handlers are total -/

/-- What `subprocess.run(..., capture_output=True, text=True)` captured. -/
structure CmdResult where
  stdout : String
  stderr : String
deriving DecidableEq, Repr

/-- `execute_command` from `malicious_server.py` lines 36-51: runs the given
command through `subprocess.run` — an external effect passed in as the oracle
`subprocess_run` (`.ok` with the captured output, or `.error` for any raised
`Exception`) — and renders either outcome into the returned string.  The
returned `Except` is the handler's own propagation channel: `.ok` is a normal
string return. -/
def execute_command (subprocess_run : Except String CmdResult)
    (_command : String) : Except String String :=
  match subprocess_run with
  | .ok r => .ok ("命令执行结果: " ++ r.stdout ++ "\n错误: " ++ r.stderr)
  | .error e => .ok ("执行失败: " ++ e)

/-- `disk_usage_resource` from `malicious_server.py` lines 625-638: runs
`df -h` through `subprocess.run` (the same oracle convention) and returns its
stdout, rendering any raised `Exception` into the returned string. -/
def disk_usage_resource (subprocess_run : Except String CmdResult) :
    Except String String :=
  match subprocess_run with
  | .ok r => .ok r.stdout
  | .error e => .ok ("获取磁盘使用失败: " ++ e)

/-- C10: whatever the subprocess call does — return output or raise any
exception — both handlers catch it and return a string as a normal success
value; neither ever propagates an exception to the dispatcher. -/
theorem malicious_handlers_never_raise
    (subprocess_run : Except String CmdResult) (command : String) :
    (∃ s, execute_command subprocess_run command = .ok s)
    ∧ (∃ s, disk_usage_resource subprocess_run = .ok s)
    ∧ (∀ e, execute_command subprocess_run command ≠ .error e)
    ∧ (∀ e, disk_usage_resource subprocess_run ≠ .error e) := by
  cases subprocess_run <;>
    simp [execute_command, disk_usage_resource]

/-! ## Claim C1: isolation of concurrent sessions' authorization contexts

`combine_auth.py` line 14 declares `request_context =
contextvars.ContextVar(...)`; line 48 sets it at the session's handshake, and
`check_permissions` (line 24) reads it at dispatch.  Python `contextvars`
semantics: the `ContextVar` object is process-wide, but its *value* lives in
the per-task `Context`, and every session's request chain runs in its own
task (one uvicorn task per connection; the MCP server loop and the tool
handlers run in tasks that inherit the SSE connection task's context).  The
model state therefore maps each session to the value `request_context` holds
in that session's context; `set` writes only the executing session's entry,
and dispatch performs a read and no write.  Interleaving of concurrent
sessions is modelled by quantifying over arbitrary event traces. -/

/-- Session identifier. -/
abbrev SessionId := Nat

/-- One step of the interleaved execution: a session's handshake (the
middleware authenticates its token and sets `request_context`), or a call
dispatched on a session (which reads the context). -/
inductive AuthEvent where
  | handshake (s : SessionId) (token : String)
  | call (s : SessionId) (tool : String)
deriving DecidableEq, Repr

/-- The session an event executes in. -/
def eventSession : AuthEvent → SessionId
  | .handshake s _ => s
  | .call s _ => s

/-- Effect of one event on the per-session context state: `ContextVar.set`
in a handshake writes the executing session's own context entry only;
dispatch reads and never writes. -/
def ctxStep (st : SessionId → Option String) :
    AuthEvent → SessionId → Option String
  | .handshake s tok => fun s2 => if s2 = s then some tok else st s2
  | .call _ _ => st

/-- The context state after running a trace from state `st`. -/
def runCtx (st : SessionId → Option String) (tr : List AuthEvent) :
    SessionId → Option String :=
  tr.foldl ctxStep st

/-- The context state after running a trace from the initial state
(`request_context` unset in every context). -/
def runTrace (tr : List AuthEvent) : SessionId → Option String :=
  runCtx (fun _ => none) tr

/-- The token of the most recent handshake session `s` itself performed in
the trace, if any. -/
def lastHandshake (s : SessionId) : List AuthEvent → Option String
  | [] => none
  | e :: rest =>
    match lastHandshake s rest with
    | some tok => some tok
    | none =>
      match e with
      | .handshake s2 tok => if s2 = s then some tok else none
      | .call _ _ => none

/-- Dispatching a call on session `s` after trace `tr`: `check_permissions`
reads `request_context` out of `s`'s own context (`ContextVar.get` raises
`LookupError` when it was never set). -/
def dispatchInSession (tr : List AuthEvent) (s : SessionId) (tool : String) :
    Except String Bool :=
  match runTrace tr s with
  | none => .error "LookupError"
  | some tok => check_permissions tok tool

/-- After any trace, a session's context entry is exactly the token of its
own most recent handshake (falling back to the starting state). -/
theorem runCtx_eq_lastHandshake (tr : List AuthEvent)
    (st : SessionId → Option String) (s : SessionId) :
    runCtx st tr s
      = (match lastHandshake s tr with
         | some tok => some tok
         | none => st s) := by
  induction tr generalizing st with
  | nil => rfl
  | cons e rest ih =>
    have hstep : runCtx st (e :: rest) s = runCtx (ctxStep st e) rest s := rfl
    rw [hstep, ih]
    cases hls : lastHandshake s rest with
    | some tok => simp [lastHandshake, hls]
    | none =>
      cases e with
      | handshake s2 tok =>
        by_cases hs : s = s2
        · subst hs
          simp [lastHandshake, hls, ctxStep]
        · simp [lastHandshake, hls, ctxStep, hs, eq_comm]
      | call s2 tool => simp [lastHandshake, hls, ctxStep]

/-- Deleting every event of a different session `s1` from the trace does not
change which handshake token session `s2` last set. -/
theorem lastHandshake_filter_ne (s1 s2 : SessionId) (hne : s1 ≠ s2)
    (tr : List AuthEvent) :
    lastHandshake s2 (tr.filter (fun e => eventSession e != s1))
      = lastHandshake s2 tr := by
  induction tr with
  | nil => rfl
  | cons e rest ih =>
    by_cases he : eventSession e = s1
    · have hb : (eventSession e != s1) = false := by simp [he]
      have hdrop : (e :: rest).filter (fun e => eventSession e != s1)
          = rest.filter (fun e => eventSession e != s1) := by
        simp [List.filter, hb]
      rw [hdrop, ih]
      cases e with
      | handshake s3 tok =>
        have hs3 : s3 ≠ s2 := by
          intro h
          apply hne
          have h31 : s3 = s1 := by simpa [eventSession] using he
          rw [← h31, h]
        cases hls : lastHandshake s2 rest <;>
          simp [lastHandshake, hls, hs3]
      | call s3 tool =>
        cases hls : lastHandshake s2 rest <;> simp [lastHandshake, hls]
    · have hb : (eventSession e != s1) = true := bne_iff_ne.mpr he
      have hkeep : (e :: rest).filter (fun e => eventSession e != s1)
          = e :: rest.filter (fun e => eventSession e != s1) := by
        simp [List.filter, hb]
      rw [hkeep]
      cases hls : lastHandshake s2 rest <;>
        simp [lastHandshake, hls, ih]

/-- C1: under any interleaving of concurrent sessions' handshakes and calls,
(i) the dispatch of a call on session `s2` behaves identically whether or not
any of a distinct session `s1`'s events are present in the trace — `s1`'s
authorization context is not readable from `s2`'s dispatch path; (ii) the
token `s2`'s dispatch resolves is exactly the one `s2` presented at its own
(most recent) handshake; and (iii) dispatching a call on `s2` writes no
session's context — `s1`'s context is not writable from `s2`'s dispatch
path. -/
theorem concurrent_sessions_isolated (tr : List AuthEvent)
    (s1 s2 : SessionId) (tool : String) (hne : s1 ≠ s2) :
    dispatchInSession tr s2 tool
      = dispatchInSession (tr.filter (fun e => eventSession e != s1)) s2 tool
    ∧ runTrace tr s2 = lastHandshake s2 tr
    ∧ (∀ s : SessionId, runTrace (tr ++ [AuthEvent.call s2 tool]) s = runTrace tr s) := by
  have hrun : ∀ t : List AuthEvent, runTrace t s2 = lastHandshake s2 t := by
    intro t
    have h := runCtx_eq_lastHandshake t (fun _ => none) s2
    cases hls : lastHandshake s2 t <;> simp [runTrace, hls] at h ⊢ <;> exact h
  refine ⟨?_, hrun tr, ?_⟩
  · unfold dispatchInSession
    rw [hrun tr, hrun (tr.filter (fun e => eventSession e != s1)),
      lastHandshake_filter_ne s1 s2 hne tr]
  · intro s
    have : runTrace (tr ++ [AuthEvent.call s2 tool]) s
        = ctxStep (runCtx (fun _ => none) tr) (AuthEvent.call s2 tool) s := by
      simp [runTrace, runCtx, List.foldl_append]
    rw [this]
    rfl

/-- C1 witness: a concrete interleaving — session 1 handshakes with `key2`,
session 0 then handshakes with `key1`, session 1 dispatches a call — where
session 1's dispatch is unaffected by deleting session 0's events and resolves
session 1's own token. -/
theorem concurrent_sessions_isolated_witness :
    dispatchInSession
        [AuthEvent.handshake 1 "key2", AuthEvent.handshake 0 "key1",
         AuthEvent.call 1 "add"] 1 "add"
      = dispatchInSession
          ([AuthEvent.handshake 1 "key2", AuthEvent.handshake 0 "key1",
            AuthEvent.call 1 "add"].filter (fun e => eventSession e != 0)) 1 "add"
    ∧ runTrace [AuthEvent.handshake 1 "key2", AuthEvent.handshake 0 "key1",
        AuthEvent.call 1 "add"] 1
      = lastHandshake 1 [AuthEvent.handshake 1 "key2", AuthEvent.handshake 0 "key1",
          AuthEvent.call 1 "add"]
    ∧ (∀ s : SessionId,
        runTrace ([AuthEvent.handshake 1 "key2", AuthEvent.handshake 0 "key1",
          AuthEvent.call 1 "add"] ++ [AuthEvent.call 1 "add"]) s
          = runTrace [AuthEvent.handshake 1 "key2", AuthEvent.handshake 0 "key1",
              AuthEvent.call 1 "add"] s) :=
  concurrent_sessions_isolated
    [AuthEvent.handshake 1 "key2", AuthEvent.handshake 0 "key1",
     AuthEvent.call 1 "add"] 0 1 "add" (by decide)

end MCPInspector
